import Mathlib

/-!
Verification of the gns3-cluster-dashboard scanning/aggregation engine.

The Python sources (`app/wol.py`, `app/scanner.py`) are shallowly embedded:
strings are lists of characters, Python floats are rationals, network and
remote-shell effects are explicit environments, and exceptions are modelled
with `Except` (an `.error` value marks a raised-and-propagating exception;
`try/except` blocks become recovery points on the `Except` value).
-/

/-- Python strings are modelled as lists of characters. -/
abbrev Str := List Char

/-! ## Python string primitives used by the sources -/

/-- The characters Python's `str.strip()` / `int()` / `float()` remove
(ASCII whitespace: space, tab, newline, carriage return, vertical tab,
form feed). -/
def pyWS (c : Char) : Bool :=
  c = ' ' ∨ c = '\t' ∨ c = '\n' ∨ c = '\r' ∨ c = '\x0b' ∨ c = '\x0c'

/-- `s.strip()`: drop leading and trailing whitespace. -/
def pyStrip (s : Str) : Str :=
  ((s.dropWhile pyWS).reverse.dropWhile pyWS).reverse

/-- `s.replace(a, b)` for one-character substrings `a`, `b`. -/
def pyReplace1 (a b : Char) (s : Str) : Str :=
  s.map (fun c => if c = a then b else c)

/-- `s.lower()` (the sources only feed ASCII through it). -/
def pyToLower (s : Str) : Str :=
  s.map Char.toLower

/-- `s.split(sep)` for a one-character separator `sep`:
`"".split(":") = [""]`, `":".split(":") = ["", ""]`. -/
def splitOnChar (sep : Char) : Str → List Str
  | [] => [[]]
  | c :: rest =>
    match splitOnChar sep rest with
    | [] => [[]]
    | hd :: tl => if c = sep then [] :: hd :: tl else (c :: hd) :: tl

/-- Helper for `pySplitWs`: accumulate the current word (reversed). -/
def pySplitWsGo (cur : Str) : Str → List Str
  | [] => if cur = [] then [] else [cur.reverse]
  | c :: rest =>
    if pyWS c then
      if cur = [] then pySplitWsGo [] rest else cur.reverse :: pySplitWsGo [] rest
    else
      pySplitWsGo (c :: cur) rest

/-- `s.split()` with no argument: split on whitespace runs, dropping
empty pieces. -/
def pySplitWs (s : Str) : List Str :=
  pySplitWsGo [] s

/-- Helper for `pySplitlines`: accumulate the current line (reversed);
a trailing line terminator produces no extra empty line. -/
def pySplitlinesGo (cur : Str) : Str → List Str
  | [] => [cur.reverse]
  | '\r' :: '\n' :: rest =>
    cur.reverse :: (if rest.isEmpty then [] else pySplitlinesGo [] rest)
  | '\n' :: rest =>
    cur.reverse :: (if rest.isEmpty then [] else pySplitlinesGo [] rest)
  | '\r' :: rest =>
    cur.reverse :: (if rest.isEmpty then [] else pySplitlinesGo [] rest)
  | c :: rest => pySplitlinesGo (c :: cur) rest

/-- `s.splitlines()`: `"".splitlines() = []`; splits on `\n`, `\r`, `\r\n`. -/
def pySplitlines : Str → List Str
  | [] => []
  | s => pySplitlinesGo [] s

/-- `s.split(sep, 1)` restricted to the first occurrence of a
one-character separator: returns the parts before and after it. -/
def splitFirst (sep : Char) : Str → Option (Str × Str)
  | [] => none
  | c :: rest =>
    if c = sep then some ([], rest)
    else (splitFirst sep rest).map (fun p => (c :: p.1, p.2))

/-- Non-overlapping substring count, `s.count(sub)`, for nonempty `sub`
(first character `a`, remainder `subtl`); the fuel argument bounds the
scan position and starts at the haystack length, so it never runs out. -/
def countSubFuel (a : Char) (subtl : Str) : Nat → Str → Nat
  | _, [] => 0
  | 0, _ => 0
  | fuel + 1, c :: rest =>
    if (a :: subtl).isPrefixOf (c :: rest) then
      1 + countSubFuel a subtl fuel (rest.drop subtl.length)
    else
      countSubFuel a subtl fuel rest

/-- `s.count(sub)` (Python counts non-overlapping occurrences;
`s.count("") = len(s) + 1`). -/
def pyCount (s sub : Str) : Nat :=
  match sub with
  | [] => s.length + 1
  | a :: subtl => countSubFuel a subtl s.length s

/-- `url.rstrip("/")`. -/
def pyRstripSlash (s : Str) : Str :=
  (s.reverse.dropWhile (fun c => c = '/')).reverse

/-! ## Python numeric literal parsing (`int(s, base)`, `float(s)`) -/

/-- The hexadecimal digit alphabet with the value of each character. -/
def hexTable : List (Char × Nat) :=
  [('0', 0), ('1', 1), ('2', 2), ('3', 3), ('4', 4), ('5', 5), ('6', 6),
   ('7', 7), ('8', 8), ('9', 9),
   ('a', 10), ('b', 11), ('c', 12), ('d', 13), ('e', 14), ('f', 15),
   ('A', 10), ('B', 11), ('C', 12), ('D', 13), ('E', 14), ('F', 15)]

/-- Value of one hexadecimal digit character, if any. -/
def hexVal? (c : Char) : Option Nat := hexTable.lookup c

/-- Value of one digit character in the given base (10 or 16). -/
def digitVal? (base : Nat) (c : Char) : Option Nat :=
  match hexVal? c with
  | some d => if d < base then some d else none
  | none => none

/-- Digits of `base` with single underscores allowed between digits
(CPython's numeric-literal rule); consumes the whole remaining string. -/
def digitsTail (base : Nat) (acc : Nat) : Str → Option Nat
  | [] => some acc
  | c :: rest =>
    if c = '_' then
      match rest with
      | [] => none
      | c2 :: rest2 =>
        match digitVal? base c2 with
        | some d => digitsTail base (base * acc + d) rest2
        | none => none
    else
      match digitVal? base c with
      | some d => digitsTail base (base * acc + d) rest
      | none => none

/-- A nonempty digit string (leading character must be a digit). -/
def parseDigitsU (base : Nat) : Str → Option Nat
  | [] => none
  | c :: rest =>
    match digitVal? base c with
    | some d => digitsTail base d rest
    | none => none

/-- After a `0x` prefix CPython additionally allows one leading
underscore before the first digit. -/
def parseAfterHexPrefix : Str → Option Nat
  | '_' :: r => parseDigitsU 16 r
  | r => parseDigitsU 16 r

/-- Split an optional leading sign, returning the sign and the rest. -/
def pySign (s : Str) : Int × Str :=
  match s with
  | [] => (1, [])
  | c :: r => if c = '+' then (1, r) else if c = '-' then (-1, r) else (1, c :: r)

/-- The digit part of a base-16 literal: an optional `0x`/`0X` prefix
followed by digits. -/
def hexBody (s : Str) : Option Nat :=
  match s with
  | c0 :: c1 :: r =>
    if c0 = '0' ∧ (c1 = 'x' ∨ c1 = 'X') then parseAfterHexPrefix r
    else parseDigitsU 16 s
  | _ => parseDigitsU 16 s

/-- `int(s, 16)`: strip whitespace, optional sign, optional `0x`/`0X`
prefix, then hex digits with single underscores between digits.
`none` models a raised `ValueError`. -/
def pyIntHex (s : Str) : Option Int :=
  let sg := pySign (pyStrip s)
  (hexBody sg.2).map (fun v => sg.1 * Int.ofNat v)

/-- `int(s)` in base 10 (no prefix allowed). -/
def pyInt10 (s : Str) : Option Int :=
  let sg := pySign (pyStrip s)
  (parseDigitsU 10 sg.2).map (fun v => sg.1 * Int.ofNat v)

/-- Consume a run of base-`base` digits (with CPython single-underscore
separators), returning value, number of digits, and the unconsumed rest;
an underscore not followed by a digit, or at the start, is left
unconsumed (so an enclosing full-string parse fails, as in CPython). -/
def takeDigitsU (base : Nat) (v cnt : Nat) : Str → Nat × Nat × Str
  | [] => (v, cnt, [])
  | c :: rest =>
    match digitVal? base c with
    | some d => takeDigitsU base (base * v + d) (cnt + 1) rest
    | none =>
      if c = '_' ∧ 0 < cnt then
        match rest with
        | c2 :: rest2 =>
          match digitVal? base c2 with
          | some d => takeDigitsU base (base * v + d) (cnt + 1) rest2
          | none => (v, cnt, c :: rest)
        | [] => (v, cnt, [c])
      else (v, cnt, c :: rest)

/-- `float(s)` on finite decimal literals (sign, integer/fraction parts,
optional exponent). Non-finite literals (`inf`, `nan`) are not modelled
(the embedding works in ℚ); they never arise in the claims. `none`
models a raised `ValueError`. -/
def pyFloat? (s : Str) : Option ℚ :=
  let cs := pyStrip s
  let sg := pySign cs
  let ip := takeDigitsU 10 0 0 sg.2
  let iv := ip.1
  let ic := ip.2.1
  let fp :=
    match ip.2.2 with
    | '.' :: r => let t := takeDigitsU 10 0 0 r; (t.1, t.2.1, t.2.2, true)
    | r => (0, 0, r, false)
  let fv := fp.1
  let fc := fp.2.1
  if ic = 0 ∧ fc = 0 then none
  else
    let mant : ℚ := (iv : ℚ) + (fv : ℚ) / ((10 : ℚ) ^ fc)
    match fp.2.2.1 with
    | [] => some (sg.1 * mant)
    | c :: r =>
      if c = 'e' ∨ c = 'E' then
        let esg := pySign r
        let ep := takeDigitsU 10 0 0 esg.2
        if ep.2.1 = 0 ∨ ep.2.2 ≠ [] then none
        else some ((sg.1 : ℚ) * mant * (10 : ℚ) ^ (esg.1 * (ep.1 : Int)))
      else none

/-! ## `app/wol.py` -/

/-- The parts `_mac_to_bytes` splits the MAC string into:
`mac.replace("-", ":").lower().split(":")`. -/
def macParts (mac : Str) : List Str :=
  splitOnChar ':' (pyToLower (pyReplace1 '-' ':' mac))

/-- One octet of `bytes(int(p, 16) for p in parts)`: `int(p, 16)` raises
`ValueError` on a bad literal, and `bytes(...)` raises `ValueError` when
the value is outside `range(0, 256)`. -/
def macOctetE (p : Str) : Except String Nat :=
  match pyIntHex p with
  | none => Except.error "invalid literal for int with base 16"
  | some v =>
    if 0 ≤ v ∧ v < 256 then Except.ok v.toNat
    else Except.error "bytes must be in range 0 256"

/-- `wol._mac_to_bytes` (wol.py lines 5-10). -/
def _mac_to_bytes (mac : Str) : Except String (List Nat) :=
  let parts := macParts mac
  if parts.length ≠ 6 then Except.error "Invalid MAC address format"
  else parts.mapM macOctetE

/-- One UDP datagram handed to `socket.sendto`. -/
structure Datagram where
  payload : List Nat
  ip : Str
  port : Int
deriving DecidableEq

/-- The default destination `"255.255.255.255"`. -/
def defaultBroadcast : Str := "255.255.255.255".toList

/-- `wol.send_magic_packet` (wol.py lines 13-26): the returned list holds
the datagrams sent, in order; an `.error` result models the `ValueError`
raised by `_mac_to_bytes`/`bytes` before the socket is opened (the socket
is created only after the payload is built, so an error result entails
that no socket was opened and nothing was sent). The inter-packet sleep
has no effect on the datagrams and is not modelled. -/
def send_magic_packet (mac : Str) (broadcast_ip : Option Str) (port : Int)
    (repeats : Int) : Except String (List Datagram) :=
  match _mac_to_bytes mac with
  | Except.error e => Except.error e
  | Except.ok mac_bytes =>
    let payload := List.replicate 6 255 ++ (List.replicate 16 mac_bytes).flatten
    let ip :=
      match broadcast_ip with
      | some b => if b ≠ [] then b else defaultBroadcast
      | none => defaultBroadcast
    Except.ok (List.replicate (max 1 repeats).toNat ⟨payload, ip, port⟩)

/-- The value of a plain hex-digit string (used to state what the "parsed
raw octets" of a valid MAC are). -/
def hexFoldVal (p : Str) : Nat :=
  p.foldl (fun a c => 16 * a + ((hexVal? c).getD 0)) 0

/-- A MAC string the spec calls valid: after normalisation it has exactly
six parts, each a nonempty string of hexadecimal digit characters whose
value is an octet (< 256). -/
def ValidMac (mac : Str) : Prop :=
  (macParts mac).length = 6 ∧
    ∀ p ∈ macParts mac, p ≠ [] ∧ (∀ c ∈ p, (hexVal? c).isSome) ∧
      hexFoldVal p < 256

instance : DecidablePred ValidMac := fun mac => by
  unfold ValidMac
  infer_instance

/-- `Except` result is an error (decidable failure test). -/
def exceptIsError {ε α : Type} (e : Except ε α) : Bool :=
  match e with
  | Except.error _ => true
  | Except.ok _ => false

/-! ## `app/scanner.py` — Remote Metrics Probe (`_ssh_fetch_metrics`) -/

/-- `parse` inside the CPU block (scanner.py lines 431-438), applied to an
already-tokenised counter list: `idle = nums[3] + (nums[4] if len(nums) > 4
else 0)` (idle + iowait) and `total = sum(nums)`; `none` models the
`IndexError` when fewer than four counters are present (caught by the
enclosing `except`). -/
def cpuIdleTotal (nums : List Int) : Option (Int × Int) :=
  if nums.length ≤ 3 then none
  else some (nums.getD 3 0 + (if 4 < nums.length then nums.getD 4 0 else 0),
             nums.sum)

/-- The CPU-percent derivation from two counter snapshots (scanner.py
lines 439-443): `delta_idle = max(0, idle2 - idle1)`,
`delta_total = max(1, total2 - total1)`,
`100.0 * (1.0 - delta_idle / delta_total)`. -/
def cpuPercentOf (n1 n2 : List Int) : Option ℚ :=
  match cpuIdleTotal n1, cpuIdleTotal n2 with
  | some it1, some it2 =>
    let delta_idle := max 0 (it2.1 - it1.1)
    let delta_total := max 1 (it2.2 - it1.2)
    some (100 * (1 - (delta_idle : ℚ) / (delta_total : ℚ)))
  | _, _ => none

/-- Tokenise one `/proc/stat` cpu line (scanner.py lines 432-435):
`parts = line.split()`, raise unless `parts[0] == 'cpu'`, then
`list(map(int, parts[1:]))`; `none` models the raised `ValueError`. -/
def parseCpuLine (line : Str) : Option (List Int) :=
  let parts := pySplitWs line
  if parts.headD [] ≠ ('c' :: 'p' :: 'u' :: []) then none
  else parts.tail.mapM pyInt10

/-- The full CPU section over the raw two-snapshot command output
(scanner.py lines 428-445): keep lines starting `"cpu "`, need at least
two, parse the first two and take the clamped delta percentage; any
failure is caught and leaves the metric absent. -/
def cpuSectionOf (raw : Str) : Option ℚ :=
  let lines := (pySplitlines (pyStrip raw)).filter
    (fun l => ('c' :: 'p' :: 'u' :: ' ' :: []).isPrefixOf l)
  if 2 ≤ lines.length then
    match parseCpuLine (lines.getD 0 []), parseCpuLine (lines.getD 1 []) with
    | some n1, some n2 => cpuPercentOf n1 n2
    | _, _ => none
  else none

/-- `parse_kb` (scanner.py lines 456-459): keep the digit characters of
the value and read them as a number (`float(num or 0)`); always ≥ 0. -/
def parse_kb (val : Str) : ℚ :=
  (((val.filter Char.isDigit).foldl
      (fun a c => 10 * a + (c.toNat - '0'.toNat)) 0 : Nat) : ℚ)

/-- The memory-percent derivation (scanner.py lines 460-463): defined
only when `mt > 0 and ma >= 0`, in which case it is
`100.0 * (1.0 - ma / mt)`. -/
def memPercentOf (mt ma : ℚ) : Option ℚ :=
  if 0 < mt ∧ 0 ≤ ma then some (100 * (1 - ma / mt)) else none

/-- Last-one-wins dictionary built by repeated assignment, looked up with
a default (`info.get(k, d)`). -/
def infoGet (kvs : List (Str × Str)) (k : Str) (d : Str) : Str :=
  (kvs.reverse.lookup k).getD d

/-- The memory section over the raw `/proc/meminfo` output (scanner.py
lines 448-465): build the key/value dictionary from lines containing a
colon (key and value stripped), then derive the percentage from
`MemTotal` and `MemAvailable`. -/
def memSectionOf (raw : Str) : Option ℚ :=
  let info := (pySplitlines raw).foldl
    (fun acc line =>
      match splitFirst ':' line with
      | some kv => acc ++ [(pyStrip kv.1, pyStrip kv.2)]
      | none => acc) []
  let mt := parse_kb (infoGet info ("MemTotal".toList) ("0".toList))
  let ma := parse_kb (infoGet info ("MemAvailable".toList) ("0".toList))
  memPercentOf mt ma

/-- The disk section over the raw `df -P /` output (scanner.py lines
468-480): take the second line, its fifth column, drop a trailing `%`,
and parse it as a float; any failure leaves the metric absent. -/
def diskSectionOf (raw : Str) : Option ℚ :=
  let lines := pySplitlines (pyStrip raw)
  if 2 ≤ lines.length then
    let cols := pySplitWs (lines.getD 1 [])
    if 5 ≤ cols.length then
      let use := cols.getD 4 []
      let use := if use.getLast? = some '%' then use.dropLast else use
      pyFloat? use
    else none
  else none

/-- A single quote character (the sources embed it in a shell command). -/
def sqc : Char := Char.ofNat 39

/-- Python's substring test `sub in s`. -/
def pyContains (s sub : Str) : Bool :=
  sub.isPrefixOf s ||
    (match s with
     | [] => false
     | _ :: t => pyContains t sub)

/-- The remote shell environment: whether `connect` (and authentication)
succeeds, and the outcome of executing each command (`.error` models an
exception raised by `exec_command`/`read`, `.ok` the decoded stdout). -/
structure SshEnv where
  connect_ok : Bool
  run : Str → Except Unit Str

/-- The five-field result of the Remote Metrics Probe. -/
structure SshMetrics where
  ok : Bool
  users_active : Option Int
  cpu_percent : Option ℚ
  mem_percent : Option ℚ
  disk_percent : Option ℚ
  ips : List Str
deriving DecidableEq

/-- `"who"`. -/
def whoCmd : Str := "who".toList
/-- `"uptime"`. -/
def uptimeCmd : Str := "uptime".toList
/-- `"who | wc -l"`. -/
def wcCmd : Str := "who | wc -l".toList
/-- The two-snapshot CPU command of scanner.py line 426. -/
def cpuCmd : Str :=
  "sh -c \"grep ".toList ++ [sqc] ++ "^cpu ".toList ++ [sqc] ++
  " /proc/stat; sleep 0.4; grep ".toList ++ [sqc] ++ "^cpu ".toList ++ [sqc] ++
  " /proc/stat\"".toList
/-- `"cat /proc/meminfo"`. -/
def memCmd : Str := "cat /proc/meminfo".toList
/-- `"df -P /"`. -/
def dfCmd : Str := "df -P /".toList
/-- `"ip -4 -o addr show scope global || hostname -I"`. -/
def ipCmd : Str := "ip -4 -o addr show scope global || hostname -I".toList

/-- First fallback tier for the active-user count (scanner.py lines
387-399): list `who` sessions, take the first word of each nonblank
line; if any names were collected, count those differing from the
monitoring user, else leave the count unset. -/
def usersTier1 (env : SshEnv) (username : Str) : Except Unit (Option Int) := do
  let who_list ← env.run whoCmd
  let names := (pySplitlines who_list).filterMap
    (fun line => if pyStrip line = [] then none else (pySplitWs line).head?)
  if names ≠ [] then
    pure (some ((names.filter (fun n => n ≠ username)).length : Int))
  else
    pure none

/-- `re.search(r"(\d+)\s+users?", s)` at one position: a nonempty digit
run, then a nonempty whitespace run, then the literal `user`. -/
def usersMatchAt (s : Str) : Option Nat :=
  let ds := s.takeWhile Char.isDigit
  if ds = [] then none
  else
    let r1 := s.dropWhile Char.isDigit
    let ws := r1.takeWhile (fun c => pyWS c)
    if ws = [] then none
    else if ("user".toList).isPrefixOf (r1.dropWhile (fun c => pyWS c)) then
      some (ds.foldl (fun a c => 10 * a + (c.toNat - '0'.toNat)) 0)
    else none

/-- `re.search(r"(\d+)\s+users?", s)`: first position admitting a match,
returning the integer value of the digit group. -/
def usersSearch : Str → Option Nat
  | [] => none
  | c :: rest =>
    match usersMatchAt (c :: rest) with
    | some n => some n
    | none => usersSearch rest

/-- Second fallback tier (scanner.py lines 400-412): parse the user count
out of `uptime`, then subtract the monitoring user's `who` occurrences
when its name appears there; a raised exception anywhere in the tier
resets the count to unset. -/
def usersTier2 (env : SshEnv) (username : Str) : Except Unit (Option Int) := do
  let up_raw ← env.run uptimeCmd
  match usersSearch up_raw with
  | none => pure none
  | some n => do
    let users : Int := (n : Int)
    let who_list ← env.run whoCmd
    if username ≠ [] ∧ pyContains who_list username then
      pure (some (max 0 (users - (pyCount who_list username : Int))))
    else
      pure (some users)

/-- Third fallback tier (scanner.py lines 413-423): `who | wc -l`, parse
the last line of the (defaulted) output as an integer, and apply the
same monitoring-user correction when the parsed count is nonzero. -/
def usersTier3 (env : SshEnv) (username : Str) : Except Unit (Option Int) := do
  let wc ← env.run wcCmd
  let s := pyStrip wc
  let s := if s = [] then ('0' :: []) else s
  match (pySplitlines s).getLast? with
  | none => Except.error ()
  | some last =>
    match pyInt10 last with
    | none => Except.error ()
    | some users =>
      if username ≠ [] ∧ users ≠ 0 then do
        let who_list ← env.run whoCmd
        pure (some (max 0 (users - (pyCount who_list username : Int))))
      else
        pure (some users)

/-- The active-user computation with its three fallback tiers; each tier
sits in its own `try/except` whose handler resets the count to `None`,
and a later tier runs only while the count is still `None`. -/
def usersSection (env : SshEnv) (username : Str) : Option Int :=
  let t1 := match usersTier1 env username with
    | Except.ok v => v
    | Except.error _ => none
  match t1 with
  | some u => some u
  | none =>
    let t2 := match usersTier2 env username with
      | Except.ok v => v
      | Except.error _ => none
    match t2 with
    | some u => some u
    | none =>
      match usersTier3 env username with
      | Except.ok v => v
      | Except.error _ => none

/-- The IPv4-token test of scanner.py line 490
(`^(?:\d{1,3}\.){3}\d{1,3}$`). -/
def isIPv4Tok (t : Str) : Bool :=
  let gs := splitOnChar '.' t
  gs.length = 4 ∧ gs.all (fun g => g ≠ [] ∧ g.length ≤ 3 ∧ g.all Char.isDigit)

/-- Drop loopback/link-local addresses and de-duplicate preserving
first-seen order (scanner.py lines 495-502). -/
def dedupFilterGo (seen : List Str) : List Str → List Str
  | [] => []
  | a :: rest =>
    if ("127.".toList).isPrefixOf a ∨ ("169.254.".toList).isPrefixOf a then
      dedupFilterGo seen rest
    else if a ∈ seen then
      dedupFilterGo seen rest
    else
      a :: dedupFilterGo (a :: seen) rest

/-- The address-discovery section (scanner.py lines 484-502): run the
address-listing command inside its own `try` (failure leaves the list
empty), split the output on `/` and newlines, keep IPv4-looking tokens,
then filter and de-duplicate. -/
def addrsOf (env : SshEnv) : List Str :=
  let addrs :=
    match env.run ipCmd with
    | Except.ok out =>
      (pySplitWs (pyReplace1 '\n' ' ' (pyReplace1 '/' ' ' out))).filter isIPv4Tok
    | Except.error _ => []
  dedupFilterGo [] addrs

/-- The body of `_ssh_fetch_metrics` after a successful connection
(scanner.py lines 381-503). The `run` calls for the CPU, memory and disk
commands sit *outside* the per-metric `try` blocks, so an exception
there propagates to the outer handler; everything else is recovered
locally. -/
def sshBody (env : SshEnv) (username : Str) : Except Unit SshMetrics := do
  let users := usersSection env username
  let cpu_raw ← env.run cpuCmd
  let cpu := cpuSectionOf cpu_raw
  let mem_raw ← env.run memCmd
  let mem := memSectionOf mem_raw
  let df_raw ← env.run dfCmd
  let disk := diskSectionOf df_raw
  let ips := addrsOf env
  pure ⟨true, users, cpu, mem, disk, ips⟩

/-- `_ssh_fetch_metrics` (scanner.py lines 368-509): a failed connection
or any exception escaping the body yields
`(False, None, None, None, None, [])`. -/
def _ssh_fetch_metrics (env : SshEnv) (username : Str) : SshMetrics :=
  if env.connect_ok then
    match sshBody env username with
    | Except.ok m => m
    | Except.error _ => ⟨false, none, none, none, none, []⟩
  else ⟨false, none, none, none, none, []⟩

/-! ## `app/scanner.py` — Management API Probe (`_query_gns3_api`) -/

/-- JSON-like values returned by `resp.json()`. -/
inductive Jval where
  | jnull
  | jbool (b : Bool)
  | jnum (q : ℚ)
  | jstr (s : Str)
  | jlist (xs : List Jval)
  | jdict (kvs : List (Str × Jval))

/-- Python truthiness of a JSON value (`arr or []`, `it or {}`,
`and total`). -/
def jTruthy : Jval → Bool
  | Jval.jnull => false
  | Jval.jbool b => b
  | Jval.jnum q => q ≠ 0
  | Jval.jstr s => s ≠ []
  | Jval.jlist xs => ¬ xs.isEmpty
  | Jval.jdict kvs => ¬ kvs.isEmpty

/-- `d.get(k, default)` on a JSON object (duplicate keys collapse
last-one-wins, as in Python's dict). -/
def dictGetJ (kvs : List (Str × Jval)) (k : Str) (d : Jval) : Jval :=
  (kvs.reverse.lookup k).getD d

/-- `k in d` on a JSON object. -/
def dictHasJ (kvs : List (Str × Jval)) (k : Str) : Bool :=
  (kvs.map Prod.fst).contains k

/-- `str(v)` as far as the probe needs it: strings map to themselves and
nothing else ever renders as `open`/`opened` (numbers are rendered from
their reduced fraction; Python would print a decimal point, but both
renderings are disjoint from the state names the probe compares with). -/
def pyStr : Jval → Str
  | Jval.jstr s => s
  | Jval.jnull => "None".toList
  | Jval.jbool b => (if b then "True" else "False").toList
  | Jval.jnum q => (toString q.num).toList ++ "#".toList ++ (toString q.den).toList
  | Jval.jlist _ => "[...]".toList
  | Jval.jdict _ => "\x7b...\x7d".toList

/-- One HTTP response: `ok` is `resp.ok`; `body` is the parsed JSON,
`none` meaning `resp.json()` raises. -/
structure HttpResp where
  ok : Bool
  body : Option Jval

/-- The HTTP transport: `get url` models `sess.get(base + path, ...)`
with the configured authorisation header, timeout and disabled
certificate verification; `.error` models a raised request exception. -/
structure HttpEnv where
  get : Str → Except Unit HttpResp

/-- A request outcome counts as reachable when it returned with
`resp.ok` (no exception, successful status). -/
def respOk : Except Unit HttpResp → Bool
  | Except.ok r => r.ok
  | Except.error _ => false

/-- `_normalize_base` (scanner.py lines 236-241). -/
def _normalize_base (url : Str) : Str :=
  if url = [] then [] else pyRstripSlash url

/-- The API generation roots tried newest-first (scanner.py line 258). -/
def versionRoots : List Str := ["/v3".toList, "/v2".toList]

/-- The version/reachability loop (scanner.py lines 260-273): the chosen
generation is the first root whose `/version` request returns `ok`;
request exceptions just move on to the next root. -/
def chooseApi (env : HttpEnv) (base : Str) : Option Str :=
  versionRoots.find?
    (fun root => respOk (env.get (base ++ root ++ "/version".toList)))

/-- The loop body of `_count_open` (scanner.py lines 276-283) over the
items: falsy items are replaced by `{}`; a truthy non-dict item raises
(`.get` on a non-dict), modelled as `.error`. -/
def countOpenItems : List Jval → Except Unit Int
  | [] => pure 0
  | it :: rest => do
    let d := if jTruthy it then it else Jval.jdict []
    match d with
    | Jval.jdict kvs =>
      let st := pyToLower (pyStr
        (dictGetJ kvs ("state".toList) (dictGetJ kvs ("status".toList) (Jval.jstr []))))
      let n ← countOpenItems rest
      pure ((if st = "open".toList ∨ st = "opened".toList then 1 else 0) + n)
    | _ => Except.error ()

/-- `_count_open` (scanner.py lines 276-283): non-lists count zero. -/
def _count_open : Jval → Except Unit Int
  | Jval.jlist items => countOpenItems items
  | _ => pure 0

/-- Parse-and-count step shared by the two project queries: on a
successful `.json()` apply `_count_open` to `arr or []`; a raised
exception (json failure or non-dict item) is caught by the enclosing
`try`, keeping the previous count. -/
def countFromBody (body : Option Jval) (prev : Int) : Int :=
  match body with
  | some j =>
    match _count_open (if jTruthy j then j else Jval.jlist []) with
    | Except.ok n => n
    | Except.error _ => prev
  | none => prev

/-- The opened-projects block (scanner.py lines 285-305), run only when a
generation was chosen. The three `_get` calls are *not* inside a `try`,
so a request exception propagates out of `_query_gns3_api`. -/
def projectsOpen (env : HttpEnv) (base chosen : Str) : Except Unit Int := do
  let r ← env.get (base ++ chosen ++ "/projects?state=opened".toList)
  let r ← if r.ok then pure r
          else env.get (base ++ chosen ++ "/projects?status=opened".toList)
  let n1 : Int := if r.ok then countFromBody r.body 0 else 0
  if n1 = 0 then do
    let r2 ← env.get (base ++ chosen ++ "/projects".toList)
    if r2.ok then pure (countFromBody r2.body n1)
    else pure n1
  else pure n1

/-- The statistics endpoint candidates (scanner.py lines 308-321): note
that the `else` branch also covers the case where *no* generation was
chosen, so the v2 list is still probed then. -/
def statsPathsFor (chosen : Option Str) : List Str :=
  if chosen = some ("/v3".toList) then
    ["/v3/system/statistics".toList, "/v3/statistics".toList,
     "/v3/compute/statistics".toList]
  else
    ["/v2/compute/statistics".toList, "/v2/statistics".toList,
     "/v2/compute/stats".toList, "/v2/system/statistics".toList]

/-- The statistics scan loop (scanner.py lines 322-334): first path whose
request succeeds, is `ok`, and whose body parses as a dict; every
failure mode just tries the next path. -/
def findStats (env : HttpEnv) (base : Str) : List Str → Option (List (Str × Jval))
  | [] => none
  | p :: rest =>
    match env.get (base ++ p) with
    | Except.error _ => findStats env base rest
    | Except.ok rs =>
      if rs.ok then
        match rs.body with
        | some (Jval.jdict kvs) => some kvs
        | _ => findStats env base rest
      else findStats env base rest

/-- `isinstance(v, (int, float))` followed by `float(v)`; Python booleans
are ints, so they convert to 0/1. -/
def numFromJ : Jval → Option ℚ
  | Jval.jnum q => some q
  | Jval.jbool b => some (if b then 1 else 0)
  | _ => none

/-- First candidate key present in the dict with a numeric value
(scanner.py lines 343-350: a present-but-non-numeric key does not break
the loop). -/
def firstNumKey (kvs : List (Str × Jval)) : List Str → Option ℚ
  | [] => none
  | k :: rest =>
    if dictHasJ kvs k then
      match numFromJ (dictGetJ kvs k Jval.jnull) with
      | some q => some q
      | none => firstNumKey kvs rest
    else firstNumKey kvs rest

/-- CPU/memory extraction from a statistics dict (scanner.py lines
336-364), including the used/total fallback guarded by `total` being
truthy (non-zero). -/
def statsExtract (kvs : List (Str × Jval)) : Option ℚ × Option ℚ :=
  let cpu_p := firstNumKey kvs
    ["cpu_percent".toList, "cpu_usage_percent".toList,
     "system_cpu_percent".toList, "cpu_usage".toList]
  let mem_p := firstNumKey kvs
    ["memory_percent".toList, "mem_percent".toList,
     "system_memory_percent".toList]
  let mem_p :=
    match mem_p with
    | some m => some m
    | none =>
      let used := firstNumKey kvs
        ["memory_used".toList, "mem_used".toList, "system_memory_used".toList]
      let total := firstNumKey kvs
        ["memory_total".toList, "mem_total".toList, "system_memory_total".toList]
      match used, total with
      | some u, some t => if t ≠ 0 then some (u / t * 100) else none
      | _, _ => none
  (cpu_p, mem_p)

/-- `_query_gns3_api` (scanner.py lines 243-366) over the transport
environment (the session headers built from the access token and token
type live inside `HttpEnv.get`). Returns
`(api_ok, projects_open, cpu_percent, mem_percent)`; `.error` models an
exception escaping to the caller's `try` in `_scan_once`. -/
def _query_gns3_api (env : HttpEnv) (server_url : Str) :
    Except Unit (Bool × Int × Option ℚ × Option ℚ) := do
  let base := _normalize_base server_url
  let chosen := chooseApi env base
  let api_ok := chosen.isSome
  let projects_open ←
    match chosen with
    | some c => projectsOpen env base c
    | none => pure 0
  let cm :=
    match findStats env base (statsPathsFor chosen) with
    | some kvs => statsExtract kvs
    | none => (none, none)
  pure (api_ok, projects_open, cm.1, cm.2)

/-! ## `app/scanner.py` — per-host pipeline and Host State Merger -/

/-- `DeviceState` (scanner.py lines 10-34). Timestamps are rationals. -/
structure DeviceState where
  id : Str
  name : Str
  ip : Str
  mac : Str
  broadcast : Str
  up : Bool
  hostname : Str
  last_seen : Option ℚ
  last_checked : Option ℚ
  gns3_active : Bool
  gns3_port : Option Int
  gns3_url : Str
  gns3_api_ok : Bool
  gns3_projects_open : Int
  gns3_cpu_percent : Option ℚ
  gns3_mem_percent : Option ℚ
  ssh_ok : Bool
  ssh_users_active : Option Int
  ssh_cpu_percent : Option ℚ
  ssh_mem_percent : Option ℚ
  ssh_disk_percent : Option ℚ
  ips : List Str
deriving DecidableEq

/-- A fresh `DeviceState` as built in `NetworkScanner.__init__`
(scanner.py lines 44-47): configured identity plus defaults. -/
def initDevice (id name ip mac broadcast : Str) : DeviceState :=
  ⟨id, name, ip, mac, broadcast, false, [], none, none, false, none, [],
   false, 0, none, none, false, none, none, none, none, []⟩

/-- The `gns3key` credential block of a device's configuration. -/
structure Gns3Key where
  server_url : Str
  access_token : Str
  token_type : Str

/-- The `ssh` credential block of a device's configuration. -/
structure SshConf where
  username : Str
  password : Str
  port : Int

/-- The per-device configuration dictionary as consulted by
`_scan_once` (absent blocks and `{}` both collapse to `none`). -/
structure DeviceCfg where
  gns3key : Option Gns3Key
  ssh : Option SshConf

/-- The per-host probe outcomes for one cycle: ping result, reverse-DNS
name, ARP/neighbour MAC, TCP connect oracle, and the two credentialled
transports. -/
structure ScanEnv where
  ping : Bool
  reverse_dns : Str
  arp_mac : Str
  tcp : Int → Bool
  http : HttpEnv
  ssh : SshEnv

/-- `_check_gns3_ports` (scanner.py lines 227-234): first open port among
`[3080, 3443, 80, 443]`. -/
def _check_gns3_ports (tcp : Int → Bool) : Option Int :=
  ([3080, 3443, 80, 443] : List Int).find? (fun p => tcp p)

/-- The service URL derived from an open port (scanner.py lines 97-98):
`https` for 443/3443, else `http`. -/
def gns3SchemeUrl (ip : Str) (p : Int) : Str :=
  (if p = 443 ∨ p = 3443 then "https".toList else "http".toList) ++
    "://".toList ++ ip ++ ":".toList ++ (toString p).toList

/-- The Management API call site (scanner.py lines 100-114) as a
six-tuple `(api_ok, projects_open, cpu, mem, gns3_url, gns3_active)`:
it runs only with a configured, nonempty server URL and access token;
an exception from the query is swallowed, leaving every local at its
prior value. -/
def apiSection (cfg : DeviceCfg) (env : ScanEnv)
    (gns3_url : Str) (gns3_active : Bool) :
    Bool × Int × Option ℚ × Option ℚ × Str × Bool :=
  match cfg.gns3key with
  | some k =>
    if k.server_url ≠ [] ∧ k.access_token ≠ [] then
      match _query_gns3_api env.http k.server_url with
      | Except.ok (a, n, c, m) =>
        (a, n, c, m, (if k.server_url ≠ [] then k.server_url else gns3_url),
         gns3_active || a)
      | Except.error _ => (false, 0, none, none, gns3_url, gns3_active)
    else (false, 0, none, none, gns3_url, gns3_active)
  | none => (false, 0, none, none, gns3_url, gns3_active)

/-- The Remote Metrics call site (scanner.py lines 116-128): runs only
with configured nonempty username and password; `_ssh_fetch_metrics`
already absorbs its failures. -/
def sshSection (cfg : DeviceCfg) (env : ScanEnv) : SshMetrics :=
  match cfg.ssh with
  | some sc =>
    if sc.username ≠ [] ∧ sc.password ≠ [] then
      _ssh_fetch_metrics env.ssh sc.username
    else ⟨false, none, none, none, none, []⟩
  | none => ⟨false, none, none, none, none, []⟩

/-- The committed `ips` list (scanner.py lines 153-159): remote-discovered
addresses first, with the configured primary IP inserted at the front
when missing. -/
def ipsFinal (devIp : Str) (ssh_ips : List Str) : List Str :=
  let ips_list := if ssh_ips ≠ [] then ssh_ips else []
  if devIp ≠ [] ∧ devIp ∉ ips_list then devIp :: ips_list else ips_list

/-- The per-device body of `_scan_once` (scanner.py lines 83-159): the
five probes followed by the locked commit into the device's state.
`_scan_once` applies this to every configured device in turn, `now`
being `time.time()` of that device's commit. -/
def scanDevice (dev : DeviceState) (cfg : DeviceCfg) (env : ScanEnv)
    (now : ℚ) : DeviceState :=
  let up := env.ping
  let hostname := if up then env.reverse_dns else []
  let mac := if dev.mac ≠ [] then dev.mac else env.arp_mac
  let gns3_port := _check_gns3_ports env.tcp
  let pa :=
    match gns3_port with
    | some p => if p ≠ 0 then (true, gns3SchemeUrl dev.ip p) else (false, [])
    | none => (false, ([] : Str))
  let api := apiSection cfg env pa.2 pa.1
  let m := sshSection cfg env
  { dev with
    up := up
    hostname := hostname
    mac := if mac ≠ [] then mac else dev.mac
    last_checked := some now
    last_seen := if up then some now else dev.last_seen
    gns3_active := api.2.2.2.2.2
    gns3_port := gns3_port
    gns3_url := api.2.2.2.2.1
    gns3_api_ok := api.1
    gns3_projects_open := api.2.1
    gns3_cpu_percent := api.2.2.1
    gns3_mem_percent := api.2.2.2.1
    ssh_ok := m.ok
    ssh_users_active := m.users_active
    ssh_cpu_percent := m.cpu_percent
    ssh_mem_percent := m.mem_percent
    ssh_disk_percent := m.disk_percent
    ips := ipsFinal dev.ip m.ips }
/-! ## Supporting lemmas for the wake-signal theorems -/

theorem except_bind_error {ε α β : Type} (e : ε) (k : α → Except ε β) :
    (Except.error e >>= k) = (Except.error e : Except ε β) := rfl

theorem except_bind_ok {ε α β : Type} (a : α) (k : α → Except ε β) :
    (Except.ok a >>= k) = k a := rfl

theorem except_pure {ε β : Type} (b : β) : (pure b : Except ε β) = Except.ok b := rfl

theorem lookup_mem_pair {α β : Type} [BEq α] [LawfulBEq α] (l : List (α × β)) (a : α)
    (b : β) (h : l.lookup a = some b) : (a, b) ∈ l := by
  induction l with
  | nil => simp [List.lookup] at h
  | cons p t ih =>
    rcases p with ⟨k, v⟩
    rw [List.lookup] at h
    cases hk : (a == k) with
    | false =>
      simp only [hk] at h
      exact List.mem_cons_of_mem _ (ih h)
    | true =>
      simp only [hk] at h
      injection h with h2
      subst h2
      simp [eq_of_beq hk]

theorem hexVal?_lt_16 {c : Char} {d : Nat} (h : hexVal? c = some d) : d < 16 := by
  have hm := lookup_mem_pair hexTable c d h
  have hall : ∀ p ∈ hexTable, p.2 < 16 := by decide
  exact hall (c, d) hm

theorem digitVal?_16 (c : Char) : digitVal? 16 c = hexVal? c := by
  unfold digitVal?
  cases h : hexVal? c with
  | none => rfl
  | some d => simp [hexVal?_lt_16 h]

theorem hexVal?_char_props {c : Char} (h : (hexVal? c).isSome) :
    pyWS c = false ∧ c ≠ '+' ∧ c ≠ '-' ∧ c ≠ '_' ∧ c ≠ 'x' ∧ c ≠ 'X' := by
  rcases Option.isSome_iff_exists.mp h with ⟨d, hd⟩
  have hm := lookup_mem_pair hexTable c d hd
  have hall : ∀ p ∈ hexTable,
      pyWS p.1 = false ∧ p.1 ≠ '+' ∧ p.1 ≠ '-' ∧ p.1 ≠ '_' ∧ p.1 ≠ 'x' ∧ p.1 ≠ 'X' := by
    decide
  exact hall (c, d) hm

theorem dropWhile_all_false {p : Char → Bool} (s : Str) (h : ∀ c ∈ s, p c = false) :
    s.dropWhile p = s := by
  cases s with
  | nil => rfl
  | cons c rest => simp [List.dropWhile_cons, h c (by simp)]

theorem pyStrip_no_ws (s : Str) (h : ∀ c ∈ s, pyWS c = false) : pyStrip s = s := by
  unfold pyStrip
  rw [dropWhile_all_false s h,
      dropWhile_all_false s.reverse (fun c hc => h c (List.mem_reverse.mp hc)),
      List.reverse_reverse]

theorem digitsTail_hex (s : Str) (acc : Nat) (h : ∀ c ∈ s, (hexVal? c).isSome) :
    digitsTail 16 acc s =
      some (s.foldl (fun a c => 16 * a + ((hexVal? c).getD 0)) acc) := by
  induction s generalizing acc with
  | nil => simp [digitsTail]
  | cons c rest ih =>
    have hc : (hexVal? c).isSome := h c (List.mem_cons_self c rest)
    rcases Option.isSome_iff_exists.mp hc with ⟨d, hd⟩
    have hnu : c ≠ '_' := (hexVal?_char_props hc).2.2.2.1
    have step : digitsTail 16 acc (c :: rest) = digitsTail 16 (16 * acc + d) rest := by
      rw [digitsTail.eq_def]
      simp [hnu, digitVal?_16, hd]
    rw [step, ih (16 * acc + d) (fun x hx => h x (List.mem_cons_of_mem c hx))]
    simp [hd]

theorem parseDigitsU_hex (s : Str) (hne : s ≠ []) (h : ∀ c ∈ s, (hexVal? c).isSome) :
    parseDigitsU 16 s = some (hexFoldVal s) := by
  cases s with
  | nil => exact absurd rfl hne
  | cons c rest =>
    have hc : (hexVal? c).isSome := h c (List.mem_cons_self c rest)
    rcases Option.isSome_iff_exists.mp hc with ⟨d, hd⟩
    simp only [parseDigitsU, digitVal?_16, hd]
    rw [digitsTail_hex rest d (fun x hx => h x (List.mem_cons_of_mem c hx))]
    unfold hexFoldVal
    simp [hd]

theorem pyIntHex_plain (p : Str) (hne : p ≠ []) (h : ∀ c ∈ p, (hexVal? c).isSome) :
    pyIntHex p = some ((hexFoldVal p : Nat) : Int) := by
  have hstrip : pyStrip p = p :=
    pyStrip_no_ws p (fun c hc => (hexVal?_char_props (h c hc)).1)
  unfold pyIntHex
  rw [hstrip]
  obtain ⟨c, rest, rfl⟩ := List.exists_cons_of_ne_nil hne
  have hc := h c (List.mem_cons_self c rest)
  obtain ⟨-, hplus, hminus, -, -, -⟩ := hexVal?_char_props hc
  have hsign : pySign (c :: rest) = (1, c :: rest) := by
    simp [pySign, hplus, hminus]
  have hbody : hexBody (c :: rest) = parseDigitsU 16 (c :: rest) := by
    unfold hexBody
    cases rest with
    | nil => rfl
    | cons c1 r =>
      have hc1 := h c1 (by simp)
      obtain ⟨-, -, -, -, hx, hX⟩ := hexVal?_char_props hc1
      simp [hx, hX]
  simp only [hsign, hbody, parseDigitsU_hex _ (by simp) h]
  simp [Int.ofNat_eq_natCast]

theorem macOctetE_ok (p : Str) (hne : p ≠ []) (h : ∀ c ∈ p, (hexVal? c).isSome)
    (hlt : hexFoldVal p < 256) : macOctetE p = Except.ok (hexFoldVal p) := by
  unfold macOctetE
  rw [pyIntHex_plain p hne h]
  have h0 : (0 : Int) ≤ (hexFoldVal p : Int) := Int.natCast_nonneg _
  have h1 : (hexFoldVal p : Int) < 256 := by exact_mod_cast hlt
  simp [h0, h1]

theorem mapM_ok_of_forall {α β : Type} (f : α → Except String β) (g : α → β)
    (l : List α) (h : ∀ a ∈ l, f a = Except.ok (g a)) :
    l.mapM f = Except.ok (l.map g) := by
  induction l with
  | nil => rfl
  | cons a t ih =>
    rw [List.mapM_cons, h a (List.mem_cons_self a t),
        ih (fun x hx => h x (List.mem_cons_of_mem a hx))]
    rw [except_bind_ok, except_bind_ok, except_pure]
    rfl

theorem mapM_ok_mem {α β : Type} (f : α → Except String β) (l : List α) (bs : List β)
    (h : l.mapM f = Except.ok bs) : ∀ a ∈ l, ∃ b, f a = Except.ok b := by
  induction l generalizing bs with
  | nil => simp
  | cons a t ih =>
    rw [List.mapM_cons] at h
    cases hfa : f a with
    | error e =>
      rw [hfa, except_bind_error] at h
      exact absurd h (by simp)
    | ok b =>
      rw [hfa, except_bind_ok] at h
      cases hmt : t.mapM f with
      | error e =>
        rw [hmt, except_bind_error] at h
        exact absurd h (by simp)
      | ok bs2 =>
        intro x hx
        rcases List.mem_cons.mp hx with hxa | hxt
        · exact ⟨b, hxa ▸ hfa⟩
        · exact ih bs2 hmt x hxt

theorem flatten_replicate_length {α : Type} (n : Nat) (l : List α) :
    (List.replicate n l).flatten.length = n * l.length := by
  induction n with
  | zero => simp
  | succ k ih => simp [List.replicate_succ, ih, Nat.succ_mul, Nat.add_comm]

/-- The destination address `broadcast_ip or "255.255.255.255"`. -/
def destIp (bip : Option Str) : Str :=
  match bip with
  | some b => if b ≠ [] then b else defaultBroadcast
  | none => defaultBroadcast

theorem send_ok_eq (mac : Str) (bs : List Nat)
    (h : _mac_to_bytes mac = Except.ok bs)
    (bip : Option Str) (port repeats : Int) :
    send_magic_packet mac bip port repeats =
      Except.ok (List.replicate (max 1 repeats).toNat
        ⟨List.replicate 6 255 ++ (List.replicate 16 bs).flatten,
         destIp bip, port⟩) := by
  unfold send_magic_packet destIp
  rw [h]

/-- C1: For every valid MAC string of six colon- or hyphen-separated
hexadecimal octets, in any letter case, `send_magic_packet` constructs a
payload of exactly 102 bytes consisting of six `0xFF` bytes followed by
the six parsed raw octets repeated 16 times, and every datagram it sends
carries exactly that payload. -/
theorem c1_magic_packet_payload (mac : Str) (h : ValidMac mac) :
    ∃ bs, _mac_to_bytes mac = Except.ok bs ∧
      bs = (macParts mac).map hexFoldVal ∧ bs.length = 6 ∧
      ∀ bip port repeats, ∃ ds,
        send_magic_packet mac bip port repeats = Except.ok ds ∧
        ∀ d ∈ ds,
          d.payload = List.replicate 6 255 ++ (List.replicate 16 bs).flatten ∧
          d.payload.length = 102 := by
  obtain ⟨hlen, hparts⟩ := h
  have hmap : ∀ p ∈ macParts mac, macOctetE p = Except.ok (hexFoldVal p) := by
    intro p hp
    obtain ⟨hne, hhex, hlt⟩ := hparts p hp
    exact macOctetE_ok p hne hhex hlt
  have hbytes : _mac_to_bytes mac = Except.ok ((macParts mac).map hexFoldVal) := by
    unfold _mac_to_bytes
    rw [if_neg (fun hh => hh hlen)]
    exact mapM_ok_of_forall _ _ _ hmap
  have hbl : ((macParts mac).map hexFoldVal).length = 6 := by simp [hlen]
  refine ⟨_, hbytes, rfl, hbl, ?_⟩
  intro bip port repeats
  refine ⟨_, send_ok_eq mac _ hbytes bip port repeats, ?_⟩
  intro d hd
  have hd2 := List.eq_of_mem_replicate hd
  subst hd2
  refine ⟨rfl, ?_⟩
  simp [flatten_replicate_length, hbl]

/-- A concrete valid MAC string (mixed case, hyphen-separated). -/
def macOk : Str := "aa-BB-cc-00-11-ff".toList

/-- Witness for C1 at a concrete mixed-case, hyphen-separated MAC. -/
theorem c1_magic_packet_payload_witness :
    ∃ ds, send_magic_packet macOk none 9 3 = Except.ok ds ∧
      ∀ d ∈ ds,
        d.payload = List.replicate 6 255 ++
          (List.replicate 16 ((macParts macOk).map hexFoldVal)).flatten ∧
        d.payload.length = 102 := by
  obtain ⟨bs, h1, h2, h3, h4⟩ := c1_magic_packet_payload macOk (by decide)
  subst h2
  exact h4 none 9 3

/-- C3: For every malformed MAC string (a number of separated parts
different from six, or a part on which octet parsing raises), the
construction fails with a `ValueError` and `send_magic_packet` returns
that error, raised before the socket is opened and before any datagram
is sent. -/
theorem c3_malformed_no_send (mac : Str)
    (h : (macParts mac).length ≠ 6 ∨
         ∃ p ∈ macParts mac, exceptIsError (macOctetE p) = true) :
    ∀ bip port repeats, ∃ e,
      send_magic_packet mac bip port repeats = Except.error e := by
  intro bip port repeats
  have hbad : ∃ e, _mac_to_bytes mac = Except.error e := by
    rcases h with hlen | ⟨p, hp, herr⟩
    · exact ⟨_, by unfold _mac_to_bytes; rw [if_pos hlen]⟩
    · by_cases hlen : (macParts mac).length = 6
      · unfold _mac_to_bytes
        rw [if_neg (fun hh => hh hlen)]
        cases hm : (macParts mac).mapM macOctetE with
        | error e => exact ⟨e, rfl⟩
        | ok bs =>
          obtain ⟨b, hb⟩ := mapM_ok_mem _ _ _ hm p hp
          rw [hb] at herr
          exact absurd herr (by simp [exceptIsError])
      · exact ⟨_, by unfold _mac_to_bytes; rw [if_pos hlen]⟩
  obtain ⟨e, he⟩ := hbad
  exact ⟨e, by unfold send_magic_packet; rw [he]⟩

/-- Witness for C3 at a five-part MAC string. -/
theorem c3_malformed_no_send_witness :
    ∃ e, send_magic_packet ("00:11:22:33:44".toList) none 9 3 = Except.error e :=
  c3_malformed_no_send ("00:11:22:33:44".toList) (Or.inl (by decide)) none 9 3

/-- C10: For every `repeats` argument, including zero and negative
values, and every MAC accepted by `_mac_to_bytes`, `send_magic_packet`
performs exactly `max(1, repeats)` datagram sends, all identical (same
payload, same destination address and port), so at least one datagram is
always sent. -/
theorem c10_send_count (mac : Str) (bs : List Nat)
    (h : _mac_to_bytes mac = Except.ok bs)
    (bip : Option Str) (port repeats : Int) :
    ∃ ds, send_magic_packet mac bip port repeats = Except.ok ds ∧
      ds.length = (max 1 repeats).toNat ∧ 1 ≤ ds.length ∧
      ∃ d0, ∀ d ∈ ds, d = d0 := by
  refine ⟨_, send_ok_eq mac bs h bip port repeats, by simp, ?_, ?_⟩
  · simp
  · exact ⟨_, fun d hd => List.eq_of_mem_replicate hd⟩

/-- Witness for C10 with a negative repeat count. -/
theorem c10_send_count_witness :
    ∃ ds, send_magic_packet macOk none 9 (-5) = Except.ok ds ∧
      ds.length = (max 1 (-5 : Int)).toNat ∧ 1 ≤ ds.length ∧
      ∃ d0, ∀ d ∈ ds, d = d0 :=
  c10_send_count macOk [170, 187, 204, 0, 17, 255] (by rfl) none 9 (-5)

/-! ## C2 / C8 — numeric derivations -/

/-- C2 counterexample: for two identical `/proc/stat` snapshots the total
delta is non-increasing, yet the computed CPU percentage is 100, not the
0 the claim asserts (the idle delta is clamped to 0 and the total delta
is floor-clamped to 1, giving `100 * (1 - 0/1)`). -/
theorem c2_counterexample :
    cpuPercentOf [1, 2, 3, 4, 5] [1, 2, 3, 4, 5] = some 100 ∧
    ([1, 2, 3, 4, 5] : List Int).sum ≤ ([1, 2, 3, 4, 5] : List Int).sum ∧
    cpuPercentOf [1, 2, 3, 4, 5] [1, 2, 3, 4, 5] ≠ some 0 := by
  have h : cpuPercentOf [1, 2, 3, 4, 5] [1, 2, 3, 4, 5] =
      some (100 * (1 - ((0 : Int) : ℚ) / ((1 : Int) : ℚ))) := by rfl
  refine ⟨?_, le_refl _, ?_⟩
  · rw [h]; norm_num
  · rw [h]; norm_num

/-- C2 (amended): the derived CPU percentage equals
`100 * (1 - max(0, idleΔ) / max(1, totalΔ))` where the idle component of
each snapshot is the fourth counter plus the fifth when present (idle +
iowait) and the total is the sum; the divisor is at least 1 (never a
division by zero), and whenever the total delta is non-increasing the
divisor is exactly 1, so the result is `100 * (1 - max(0, idleΔ))` —
100, not 0, when the idle delta is also non-increasing. -/
theorem c2_cpu_percent_amended (n1 n2 : List Int) (i1 t1 i2 t2 : Int)
    (h1 : cpuIdleTotal n1 = some (i1, t1))
    (h2 : cpuIdleTotal n2 = some (i2, t2)) :
    cpuPercentOf n1 n2 =
      some (100 * (1 - ((max 0 (i2 - i1) : Int) : ℚ) / ((max 1 (t2 - t1) : Int) : ℚ))) ∧
    i1 = n1.getD 3 0 + (if 4 < n1.length then n1.getD 4 0 else 0) ∧
    t1 = n1.sum ∧
    (1 : Int) ≤ max 1 (t2 - t1) ∧
    (t2 ≤ t1 → cpuPercentOf n1 n2 = some (100 * (1 - ((max 0 (i2 - i1) : Int) : ℚ)))) ∧
    (t2 ≤ t1 → i2 ≤ i1 → cpuPercentOf n1 n2 = some 100) := by
  have hval : cpuPercentOf n1 n2 =
      some (100 * (1 - ((max 0 (i2 - i1) : Int) : ℚ) / ((max 1 (t2 - t1) : Int) : ℚ))) := by
    unfold cpuPercentOf
    rw [h1, h2]
  have hit : i1 = n1.getD 3 0 + (if 4 < n1.length then n1.getD 4 0 else 0) ∧ t1 = n1.sum := by
    unfold cpuIdleTotal at h1
    by_cases hl : n1.length ≤ 3
    · rw [if_pos hl] at h1; exact absurd h1 (by simp)
    · rw [if_neg hl] at h1
      injection h1 with h1
      exact ⟨congrArg Prod.fst h1.symm, congrArg Prod.snd h1.symm⟩
  refine ⟨hval, hit.1, hit.2, le_max_left 1 _, ?_, ?_⟩
  · intro hle
    rw [hval]
    have hm : max 1 (t2 - t1) = 1 := max_eq_left (by omega)
    rw [hm]
    norm_num
  · intro hle hidle
    rw [hval]
    have hm : max 1 (t2 - t1) = 1 := max_eq_left (by omega)
    have hi : max 0 (i2 - i1) = 0 := max_eq_left (by omega)
    rw [hm, hi]
    norm_num

/-- Witness for C2 (amended) at two concrete snapshots with decreasing
totals. -/
theorem c2_cpu_percent_amended_witness :
    cpuPercentOf [10, 0, 0, 4, 0] [5, 0, 0, 4, 0] = some 100 := by
  have h := c2_cpu_percent_amended [10, 0, 0, 4, 0] [5, 0, 0, 4, 0] 4 14 4 9
    (by decide) (by decide)
  exact h.2.2.2.2.2 (by decide) (by decide)

/-- `parse_kb` never yields a negative value (the digit fold is a
natural number), so the `ma >= 0` guard in the source always passes for
values coming from `/proc/meminfo` parsing. -/
theorem parse_kb_nonneg (s : Str) : 0 ≤ parse_kb s := by
  unfold parse_kb
  positivity

/-- C8: for every MemTotal/MemAvailable pair with `MemTotal > 0` (and
the always-true nonnegativity of the parsed available value), the
derived memory percent-used equals `100 * (1 - MemAvailable/MemTotal)`;
in particular total = 1,000,000 kB and available = 250,000 kB yield
exactly 75. -/
theorem c8_mem_percent (mt ma : ℚ) (h1 : 0 < mt) (h2 : 0 ≤ ma) :
    memPercentOf mt ma = some (100 * (1 - ma / mt)) ∧
    memSectionOf ("MemTotal: 1000000 kB\nMemAvailable: 250000 kB".toList) = some 75 := by
  constructor
  · unfold memPercentOf
    rw [if_pos ⟨h1, h2⟩]
  · have h : memSectionOf ("MemTotal: 1000000 kB\nMemAvailable: 250000 kB".toList) =
        some (100 * (1 - ((250000 : Nat) : ℚ) / ((1000000 : Nat) : ℚ))) := by rfl
    rw [h]
    norm_num

/-- Witness for C8 at total 1,000,000 kB, available 250,000 kB. -/
theorem c8_mem_percent_witness :
    memPercentOf 1000000 250000 = some (100 * (1 - (250000 : ℚ) / 1000000)) ∧
    memSectionOf ("MemTotal: 1000000 kB\nMemAvailable: 250000 kB".toList) = some 75 :=
  c8_mem_percent 1000000 250000 (by norm_num) (by norm_num)

/-! ## C4 — Remote Metrics Probe error isolation -/

/-- The all-absent failure result of the probe. -/
def sshFail : SshMetrics := ⟨false, none, none, none, none, []⟩

/-- An environment whose connection succeeds and whose `who` command
works, but whose CPU command raises. -/
def envCpuRaise : SshEnv :=
  ⟨true, fun c =>
    if c = cpuCmd then Except.error ()
    else if c = whoCmd then Except.ok ("alice tty1\n".toList)
    else Except.ok []⟩

/-- C4 counterexample: the connection and authentication succeed and the
session-listing command works, but the CPU command raises; the probe
then returns `ok = false` with *all* metrics absent (the CPU, memory and
disk commands run outside the per-metric recovery blocks), not
`ok = true` with only the CPU metric absent as the claim states. -/
theorem c4_counterexample :
    envCpuRaise.connect_ok = true ∧
    envCpuRaise.run whoCmd = Except.ok ("alice tty1\n".toList) ∧
    envCpuRaise.run cpuCmd = Except.error () ∧
    _ssh_fetch_metrics envCpuRaise ("mon".toList) = sshFail ∧
    (_ssh_fetch_metrics envCpuRaise ("mon".toList)).ok ≠ true := by
  exact ⟨rfl, rfl, rfl, rfl, by decide⟩

/-- C4 (amended): a connect/auth failure returns `ok = false` with all
metrics absent; so does a raised failure of the CPU, memory or disk
command, which execute outside the per-metric recovery blocks. When
those three commands execute without raising, the probe returns
`ok = true` and each metric is computed independently from its own
command output — in particular, if all three session-listing commands
raise, only the user count is absent while `ok` stays true. -/
theorem c4_ssh_error_isolation_amended (env : SshEnv) (username : Str) :
    (env.connect_ok = false → _ssh_fetch_metrics env username = sshFail) ∧
    (∀ e, env.connect_ok = true → env.run cpuCmd = Except.error e →
      _ssh_fetch_metrics env username = sshFail) ∧
    (∀ cr e, env.connect_ok = true → env.run cpuCmd = Except.ok cr →
      env.run memCmd = Except.error e →
      _ssh_fetch_metrics env username = sshFail) ∧
    (∀ cr mr e, env.connect_ok = true → env.run cpuCmd = Except.ok cr →
      env.run memCmd = Except.ok mr → env.run dfCmd = Except.error e →
      _ssh_fetch_metrics env username = sshFail) ∧
    (∀ cr mr dr, env.connect_ok = true → env.run cpuCmd = Except.ok cr →
      env.run memCmd = Except.ok mr → env.run dfCmd = Except.ok dr →
      _ssh_fetch_metrics env username =
        ⟨true, usersSection env username, cpuSectionOf cr, memSectionOf mr,
         diskSectionOf dr, addrsOf env⟩) ∧
    (exceptIsError (env.run whoCmd) = true →
      exceptIsError (env.run uptimeCmd) = true →
      exceptIsError (env.run wcCmd) = true →
      usersSection env username = none) := by
  refine ⟨?_, ?_, ?_, ?_, ?_, ?_⟩
  · intro h
    unfold _ssh_fetch_metrics
    rw [h]
    rfl
  · intro e hc hcpu
    unfold _ssh_fetch_metrics sshBody
    rw [hc]
    simp only [if_true, hcpu, except_bind_error]
    rfl
  · intro cr e hc hcpu hmem
    unfold _ssh_fetch_metrics sshBody
    rw [hc]
    simp only [if_true, hcpu, hmem, except_bind_ok, except_bind_error]
    rfl
  · intro cr mr e hc hcpu hmem hdf
    unfold _ssh_fetch_metrics sshBody
    rw [hc]
    simp only [if_true, hcpu, hmem, hdf, except_bind_ok, except_bind_error]
    rfl
  · intro cr mr dr hc hcpu hmem hdf
    unfold _ssh_fetch_metrics sshBody
    rw [hc]
    simp only [if_true, hcpu, hmem, hdf, except_bind_ok, except_pure]
  · intro hwho hup hwc
    have hwho2 : ∃ e, env.run whoCmd = Except.error e := by
      cases h : env.run whoCmd with
      | error e => exact ⟨e, rfl⟩
      | ok v => rw [h] at hwho; exact absurd hwho (by simp [exceptIsError])
    have hup2 : ∃ e, env.run uptimeCmd = Except.error e := by
      cases h : env.run uptimeCmd with
      | error e => exact ⟨e, rfl⟩
      | ok v => rw [h] at hup; exact absurd hup (by simp [exceptIsError])
    have hwc2 : ∃ e, env.run wcCmd = Except.error e := by
      cases h : env.run wcCmd with
      | error e => exact ⟨e, rfl⟩
      | ok v => rw [h] at hwc; exact absurd hwc (by simp [exceptIsError])
    obtain ⟨e1, h1⟩ := hwho2
    obtain ⟨e2, h2⟩ := hup2
    obtain ⟨e3, h3⟩ := hwc2
    unfold usersSection usersTier1 usersTier2 usersTier3
    rw [h1, h2, h3]
    simp only [except_bind_error]

/-- An environment with no connection at all. -/
def envNoConn : SshEnv := ⟨false, fun _ => Except.ok []⟩

/-- An environment where the three session-listing commands raise and
every other command returns empty output. -/
def envWhoRaise : SshEnv :=
  ⟨true, fun c =>
    if c = whoCmd ∨ c = uptimeCmd ∨ c = wcCmd then Except.error ()
    else Except.ok []⟩

/-- Witness for C4 (amended): concrete environments exercising the
connection-failure branch, the all-commands-succeed branch, and the
session-commands-raise branch. -/
theorem c4_ssh_error_isolation_amended_witness :
    _ssh_fetch_metrics envNoConn ("mon".toList) = sshFail ∧
    _ssh_fetch_metrics envWhoRaise ("mon".toList) =
      ⟨true, usersSection envWhoRaise ("mon".toList), cpuSectionOf [],
       memSectionOf [], diskSectionOf [], addrsOf envWhoRaise⟩ ∧
    usersSection envWhoRaise ("mon".toList) = none := by
  refine ⟨(c4_ssh_error_isolation_amended envNoConn ("mon".toList)).1 rfl, ?_, ?_⟩
  · exact (c4_ssh_error_isolation_amended envWhoRaise ("mon".toList)).2.2.2.2.1
      [] [] [] rfl rfl rfl rfl
  · exact (c4_ssh_error_isolation_amended envWhoRaise ("mon".toList)).2.2.2.2.2
      rfl rfl rfl

/-! ## C5 — Management API Probe with no reachable generation -/

/-- An environment where both version probes return a non-ok response
but the first v2 statistics endpoint answers with a CPU percentage. -/
def envStatsOnly : HttpEnv :=
  ⟨fun u =>
    if u = ("http://h/v2/compute/statistics".toList) then
      Except.ok ⟨true, some (Jval.jdict [("cpu_percent".toList, Jval.jnum 50)])⟩
    else Except.ok ⟨false, none⟩⟩

/-- C5 counterexample: no API generation root's version request succeeds,
and the probe does report `api_ok = false` with `projects_open = 0` — but
it still probes the v2 statistics endpoints (the `else` branch of the
path selection also covers "no generation chosen"), so the CPU percent
is *present* (50), contradicting the claim that both load statistics are
absent. -/
theorem c5_counterexample :
    respOk (envStatsOnly.get ("http://h/v3/version".toList)) = false ∧
    respOk (envStatsOnly.get ("http://h/v2/version".toList)) = false ∧
    _query_gns3_api envStatsOnly ("http://h".toList) =
      Except.ok (false, 0, some 50, none) ∧
    (some (50 : ℚ) ≠ (none : Option ℚ)) :=
  ⟨rfl, rfl, rfl, by simp⟩

/-- C5 (amended): if no API generation root's version request returns a
successful response, the probe reports `api_ok = false` with
`projects_open = 0` and makes no project queries; however it still scans
the older generation's statistics endpoint list, so the CPU and memory
percentages are whatever that scan extracts (possibly present). -/
theorem c5_api_no_version_amended (env : HttpEnv) (url : Str)
    (h3 : respOk (env.get (_normalize_base url ++ "/v3".toList ++ "/version".toList)) = false)
    (h2 : respOk (env.get (_normalize_base url ++ "/v2".toList ++ "/version".toList)) = false) :
    ∃ cpu mem, _query_gns3_api env url = Except.ok (false, 0, cpu, mem) ∧
      (cpu, mem) =
        (match findStats env (_normalize_base url) (statsPathsFor none) with
         | some kvs => statsExtract kvs
         | none => (none, none)) := by
  have hchoose : chooseApi env (_normalize_base url) = none := by
    apply List.find?_eq_none.mpr
    intro x hx
    unfold versionRoots at hx
    simp only [List.mem_cons, List.not_mem_nil, or_false] at hx
    rcases hx with rfl | rfl
    · simpa using h3
    · simpa using h2
  refine ⟨_, _, ?_, rfl⟩
  simp only [_query_gns3_api, hchoose, Option.isSome_none, except_pure,
    except_bind_ok]

/-- Witness for C5 (amended) at the concrete stats-only environment. -/
theorem c5_api_no_version_amended_witness :
    ∃ cpu mem, _query_gns3_api envStatsOnly ("http://h".toList) =
      Except.ok (false, 0, cpu, mem) ∧
      (cpu, mem) =
        (match findStats envStatsOnly (_normalize_base ("http://h".toList))
            (statsPathsFor none) with
         | some kvs => statsExtract kvs
         | none => (none, none)) :=
  c5_api_no_version_amended envStatsOnly ("http://h".toList) rfl rfl

/-! ## C6 / C7 / C9 — committed per-cycle state -/

/-- An HTTP environment where every request raises. -/
def httpNone : HttpEnv := ⟨fun _ => Except.error ()⟩

/-- A shell environment reporting `MemAvailable` larger than `MemTotal`
(bogus but syntactically well-formed meminfo output). -/
def sshEnvBogusMem : SshEnv :=
  ⟨true, fun c =>
    if c = memCmd then
      Except.ok ("MemTotal: 1 kB\nMemAvailable: 2 kB".toList)
    else if c = wcCmd then Except.ok ("0".toList)
    else Except.ok []⟩

/-- The device, configuration and probe environment of the C6
counterexample cycle: SSH credentials configured, host down, no API. -/
def devBogus : DeviceState :=
  initDevice ("h1".toList) ("host".toList) ("10.0.0.1".toList) [] []

/-- Configuration with only SSH credentials. -/
def cfgBogus : DeviceCfg := ⟨none, some ⟨"mon".toList, "pw".toList, 22⟩⟩

/-- The probe environment of the C6 counterexample cycle. -/
def envBogus : ScanEnv := ⟨false, [], [], fun _ => false, httpNone, sshEnvBogusMem⟩

/-- C6 counterexample: after a full scan cycle in which the remote host
reports `MemAvailable` (2 kB) larger than `MemTotal` (1 kB), the
committed `ssh_mem_percent` is present and equals −100, outside [0,100]
— the derivation does not clip. -/
theorem c6_counterexample :
    ∃ q, (scanDevice devBogus cfgBogus envBogus 0).ssh_mem_percent = some q ∧
      q < 0 := by
  refine ⟨100 * (1 - ((2 : Nat) : ℚ) / ((1 : Nat) : ℚ)), rfl, by norm_num⟩

/-- C6 (amended): `ssh_mem_percent` and `ssh_cpu_percent`, whenever
present, are at most 100; `ssh_mem_percent` is nonnegative whenever
`MemAvailable ≤ MemTotal`, and `ssh_cpu_percent` is nonnegative whenever
the raw idle delta does not exceed the clamped total delta. The
derivations do not clip, so percent fields derived from bogus remote
values (and the pass-through GNS3/disk percents) may leave [0,100]. -/
theorem c6_percent_bounds_amended :
    (∀ mt ma : ℚ, 0 < mt → 0 ≤ ma → ∀ q, memPercentOf mt ma = some q →
      q ≤ 100 ∧ (ma ≤ mt → 0 ≤ q)) ∧
    (∀ n1 n2 : List Int, ∀ q : ℚ, cpuPercentOf n1 n2 = some q → q ≤ 100) ∧
    (∀ n1 n2 : List Int, ∀ i1 t1 i2 t2 : Int, ∀ q : ℚ,
      cpuIdleTotal n1 = some (i1, t1) → cpuIdleTotal n2 = some (i2, t2) →
      cpuPercentOf n1 n2 = some q → i2 - i1 ≤ max 1 (t2 - t1) → 0 ≤ q) := by
  refine ⟨?_, ?_, ?_⟩
  · intro mt ma h1 h2 q hq
    unfold memPercentOf at hq
    rw [if_pos ⟨h1, h2⟩] at hq
    injection hq with hq
    subst hq
    have hdiv : 0 ≤ ma / mt := div_nonneg h2 h1.le
    constructor
    · nlinarith
    · intro hle
      have : ma / mt ≤ 1 := (div_le_one h1).mpr hle
      nlinarith
  · intro n1 n2 q hq
    unfold cpuPercentOf at hq
    cases e1 : cpuIdleTotal n1 with
    | none => rw [e1] at hq; exact absurd hq (by simp)
    | some it1 =>
      cases e2 : cpuIdleTotal n2 with
      | none => rw [e1, e2] at hq; exact absurd hq (by simp)
      | some it2 =>
        rw [e1, e2] at hq
        injection hq with hq
        subst hq
        have hI : (0 : ℚ) ≤ ((max 0 (it2.1 - it1.1) : Int) : ℚ) := by
          have : (0 : Int) ≤ max 0 (it2.1 - it1.1) := le_max_left 0 _
          exact_mod_cast this
        have hT : (1 : ℚ) ≤ ((max 1 (it2.2 - it1.2) : Int) : ℚ) := by
          have : (1 : Int) ≤ max 1 (it2.2 - it1.2) := le_max_left 1 _
          exact_mod_cast this
        have hdiv : 0 ≤ ((max 0 (it2.1 - it1.1) : Int) : ℚ) /
            ((max 1 (it2.2 - it1.2) : Int) : ℚ) :=
          div_nonneg hI (by linarith)
        nlinarith
  · intro n1 n2 i1 t1 i2 t2 q e1 e2 hq hle
    unfold cpuPercentOf at hq
    rw [e1, e2] at hq
    injection hq with hq
    subst hq
    have hIT : (max 0 (i2 - i1) : Int) ≤ max 1 (t2 - t1) := by omega
    have hT0 : (0 : ℚ) < ((max 1 (t2 - t1) : Int) : ℚ) := by
      have h1 : (1 : Int) ≤ max 1 (t2 - t1) := le_max_left 1 _
      have h2 : ((1 : Int) : ℚ) ≤ ((max 1 (t2 - t1) : Int) : ℚ) := Int.cast_le.mpr h1
      rw [Int.cast_one] at h2
      linarith
    have hdiv : ((max 0 (i2 - i1) : Int) : ℚ) / ((max 1 (t2 - t1) : Int) : ℚ) ≤ 1 := by
      rw [div_le_one hT0]
      exact_mod_cast hIT
    nlinarith

/-- Witness for C6 (amended) at total 2, available 1. -/
theorem c6_percent_bounds_amended_witness :
    (100 * (1 - (1 : ℚ) / 2)) ≤ 100 ∧ (0 : ℚ) ≤ 100 * (1 - (1 : ℚ) / 2) := by
  have h := c6_percent_bounds_amended.1 2 1 (by norm_num) (by norm_num)
    (100 * (1 - (1 : ℚ) / 2)) (by norm_num [memPercentOf])
  exact ⟨h.1, h.2 (by norm_num)⟩

/-- C7: in every scan cycle, `last_checked` is set to the cycle's time
and `last_seen` advances only when the host was reachable; a previously
resolved nonempty MAC is never overwritten by a failed resolution — in
particular a cycle with `up = false` and empty MAC resolution leaves
both `mac` and `last_seen` untouched while `last_checked` advances. -/
theorem c7_merge_sticky (dev : DeviceState) (cfg : DeviceCfg) (env : ScanEnv)
    (now : ℚ) :
    (scanDevice dev cfg env now).last_checked = some now ∧
    (scanDevice dev cfg env now).last_seen =
      (if env.ping then some now else dev.last_seen) ∧
    (dev.mac ≠ [] → (scanDevice dev cfg env now).mac = dev.mac) ∧
    (env.ping = false → env.arp_mac = [] → dev.mac ≠ [] →
      (scanDevice dev cfg env now).last_seen = dev.last_seen ∧
      (scanDevice dev cfg env now).mac = dev.mac) := by
  refine ⟨by simp [scanDevice], by simp [scanDevice], ?_, ?_⟩
  · intro h
    simp [scanDevice, h]
  · intro h1 h2 h3
    exact ⟨by simp [scanDevice, h1], by simp [scanDevice, h3]⟩

/-- A configured device with an already-resolved MAC. -/
def devSticky : DeviceState :=
  initDevice ("d".toList) ("n".toList) ("10.0.0.9".toList)
    ("aa:bb:cc:dd:ee:ff".toList) []

/-- A configuration with no credentials at all. -/
def cfgEmpty : DeviceCfg := ⟨none, none⟩

/-- A cycle environment where everything is down and MAC resolution
fails. -/
def envDown : ScanEnv := ⟨false, [], [], fun _ => false, httpNone, envNoConn⟩

/-- Witness for C7: a concrete down cycle preserves the sticky MAC and
`last_seen` while `last_checked` advances. -/
theorem c7_merge_sticky_witness :
    (scanDevice devSticky cfgEmpty envDown 7).last_checked = some 7 ∧
    (scanDevice devSticky cfgEmpty envDown 7).last_seen = devSticky.last_seen ∧
    (scanDevice devSticky cfgEmpty envDown 7).mac = devSticky.mac := by
  have h := c7_merge_sticky devSticky cfgEmpty envDown 7
  have h4 := h.2.2.2 rfl rfl (by decide)
  exact ⟨h.1, h4.1, h4.2⟩

/-- Whether the Management API Probe ran this cycle and reported ok
(scanner.py lines 101-114: false when unconfigured, when the query
raised, or when the query returned not-ok). -/
def apiReportedOk (cfg : DeviceCfg) (env : ScanEnv) : Bool :=
  match cfg.gns3key with
  | some k =>
    if k.server_url ≠ [] ∧ k.access_token ≠ [] then
      match _query_gns3_api env.http k.server_url with
      | Except.ok t => t.1
      | Except.error _ => false
    else false
  | none => false

/-- C9: after every scan cycle, the committed `gns3_active` is true iff
the Service Port Probe found an open port this cycle or the Management
API Probe reported ok this cycle. -/
theorem c9_service_active (dev : DeviceState) (cfg : DeviceCfg) (env : ScanEnv)
    (now : ℚ) :
    (scanDevice dev cfg env now).gns3_active =
      ((_check_gns3_ports env.tcp).isSome || apiReportedOk cfg env) := by
  have hports : ∀ p, _check_gns3_ports env.tcp = some p → p ≠ 0 := by
    intro p hp
    have hmem : p ∈ ([3080, 3443, 80, 443] : List Int) :=
      List.mem_of_find?_eq_some hp
    simp only [List.mem_cons, List.not_mem_nil, or_false] at hmem
    rcases hmem with rfl | rfl | rfl | rfl <;> decide
  unfold scanDevice apiSection apiReportedOk
  cases hp : _check_gns3_ports env.tcp with
  | none =>
    cases hk : cfg.gns3key with
    | none => simp [hp, hk]
    | some k =>
      by_cases hc : k.server_url ≠ [] ∧ k.access_token ≠ []
      · cases hq : _query_gns3_api env.http k.server_url with
        | ok t =>
          rcases t with ⟨a, n, c, m⟩
          simp [hp, hk, hc, hq]
        | error e => simp [hp, hk, hc, hq]
      · simp [hp, hk, hc]
  | some p =>
    have hp0 : p ≠ 0 := hports p hp
    cases hk : cfg.gns3key with
    | none => simp [hp, hk, hp0]
    | some k =>
      by_cases hc : k.server_url ≠ [] ∧ k.access_token ≠ []
      · cases hq : _query_gns3_api env.http k.server_url with
        | ok t =>
          rcases t with ⟨a, n, c, m⟩
          simp [hp, hk, hc, hq, hp0]
        | error e => simp [hp, hk, hc, hq, hp0]
      · simp [hp, hk, hc, hp0]
